import Mathlib

/-!
# Verification of the Mol* / Shiny glue layer

Shallow embedding of the message-driven commands of `src/main.ts` /
`src/unnamed/part_000` (highlightDomains, highlightResidueWithSphere,
zoomToResidue, clearOverlays, clearPaint, resetCamera) and of the hover
handler, together with proofs about the overpaint-layer cache, the hex
color validation and the position-cleaning pipeline.

The wrapped visualization library (Mol*) is treated as an opaque
collaborator: its builder/transform calls are modelled as total state
updates (the committed overpaint layers, the `mutations` sphere group,
the camera).  Everything the repository's own code does — validation,
cleaning, cache bookkeeping, guard clauses, the property accesses that
can throw — is translated statement by statement from the source.
-/

namespace Molstar

/-! ## JS numbers for position inputs

`highlightResidueWithSphere` receives (possibly nested) arrays whose
leaves are JS numbers; `Number(p)` on a number is the identity, so a
leaf is modelled directly as a JS number: `NaN`, `±Infinity`, or a
finite value (modelled exactly as a rational). -/

inductive JsNum where
  | nan : JsNum
  | posInf : JsNum
  | negInf : JsNum
  | fin (q : ℚ) : JsNum
deriving DecidableEq, Repr

/-- Nested position input: `positions` may be a number or an arbitrarily
nested array of numbers (the source's `flatten` handles `any`). -/
inductive PosInput where
  | num (v : JsNum) : PosInput
  | arr (elems : List PosInput) : PosInput

/-- The source's `flatten` (part_000 lines 31-37): a non-array becomes a
one-element list, an array is flattened recursively and concatenated. -/
def flattenPos : PosInput → List JsNum
  | .num v => [v]
  | .arr [] => []
  | .arr (e :: es) => flattenPos e ++ flattenPos (.arr es)

/-- One step of the cleaning map (lines 40-45): `Number(p)` (identity on
numbers), keep `Math.floor(n)` when `Number.isFinite(n)`, else `null`
(dropped by the subsequent filter). -/
def toFiniteFloor : JsNum → Option Int
  | .fin q => some ⌊q⌋
  | _ => none

/-- `rawFlat.map(...).filter(n => n !== null)` (lines 40-45). -/
def posNums (raw : List JsNum) : List Int :=
  raw.filterMap toFiniteFloor

/-- Insertion into a JS `Set` (in array form): adding a value already
present is a no-op, otherwise it is appended, so insertion order is
kept with the first occurrence winning. -/
def jsSetInsert (acc : List Int) (x : Int) : List Int :=
  if x ∈ acc then acc else acc ++ [x]

/-- `Array.from(new Set(posNums))` (line 48): build the `Set` by
inserting the values left to right. -/
def jsSetDedup (l : List Int) : List Int :=
  l.foldl jsSetInsert []

/-- `.sort((a, b) => a - b)` (line 48): numeric ascending sort of the
deduplicated list.  `uniquePos` is the cleaned position list the sphere
highlight queries with. -/
def uniquePos (raw : List JsNum) : List Int :=
  List.insertionSort (fun a b => a ≤ b) (jsSetDedup (posNums raw))

theorem mem_foldl_jsSetInsert {x : Int} (l : List Int) :
    ∀ acc : List Int, x ∈ l.foldl jsSetInsert acc ↔ x ∈ acc ∨ x ∈ l := by
  induction l with
  | nil => intro acc; simp
  | cons a l ih =>
    intro acc
    rw [List.foldl_cons, ih]
    unfold jsSetInsert
    by_cases ha : a ∈ acc
    · simp only [if_pos ha, List.mem_cons]
      constructor
      · tauto
      · rintro (hx | rfl | hx)
        · exact Or.inl hx
        · exact Or.inl ha
        · exact Or.inr hx
    · simp only [if_neg ha, List.mem_append, List.mem_singleton,
        List.mem_cons]
      tauto

theorem nodup_foldl_jsSetInsert (l : List Int) :
    ∀ acc : List Int, acc.Nodup → (l.foldl jsSetInsert acc).Nodup := by
  induction l with
  | nil => intro acc h; exact h
  | cons a l ih =>
    intro acc h
    rw [List.foldl_cons]
    apply ih
    unfold jsSetInsert
    by_cases ha : a ∈ acc
    · simpa [ha] using h
    · simp [ha, List.nodup_append, h]

theorem mem_jsSetDedup {a : Int} {l : List Int} :
    a ∈ jsSetDedup l ↔ a ∈ l := by
  unfold jsSetDedup
  rw [mem_foldl_jsSetInsert]
  simp

theorem jsSetDedup_nodup (l : List Int) : (jsSetDedup l).Nodup :=
  nodup_foldl_jsSetInsert l [] List.nodup_nil

theorem uniquePos_nodup (raw : List JsNum) : (uniquePos raw).Nodup :=
  ((List.perm_insertionSort _ _).nodup_iff).mpr (jsSetDedup_nodup _)

theorem uniquePos_sorted (raw : List JsNum) :
    (uniquePos raw).Sorted (fun a b => a ≤ b) :=
  List.sorted_insertionSort _ _

theorem mem_uniquePos {a : Int} {raw : List JsNum} :
    a ∈ uniquePos raw ↔ a ∈ posNums raw := by
  unfold uniquePos
  rw [(List.perm_insertionSort _ _).mem_iff, mem_jsSetDedup]

/-! ## JS `parseInt(hex, 16)`

Both highlight functions validate the color by stripping an optional
leading `#` and calling `parseInt(hex, 16)`; the operation aborts when
the result is `NaN`.  `jsParseIntHex` models `parseInt` with radix 16
per the ECMAScript algorithm: skip leading whitespace, read an optional
sign, strip an optional `0x`/`0X`, then interpret the longest leading
run of hex digits; no digits means `NaN` (here `none`). -/

def isJsSpace (c : Char) : Bool :=
  c == ' ' || c == '\t' || c == '\n' || c == '\r' || c == '\x0b' ||
    c == '\x0c' || c == '\xa0'

def isHexDigit (c : Char) : Bool :=
  (decide ('0' ≤ c) && decide (c ≤ '9')) ||
    (decide ('a' ≤ c) && decide (c ≤ 'f')) ||
    (decide ('A' ≤ c) && decide (c ≤ 'F'))

def hexDigitVal (c : Char) : Nat :=
  if decide ('0' ≤ c) && decide (c ≤ '9') then c.toNat - '0'.toNat
  else if decide ('a' ≤ c) && decide (c ≤ 'f') then c.toNat - 'a'.toNat + 10
  else c.toNat - 'A'.toNat + 10

def jsParseIntHex (s : String) : Option Int :=
  let cs := s.toList.dropWhile isJsSpace
  let signed : Int × List Char :=
    match cs with
    | '-' :: rest => (-1, rest)
    | '+' :: rest => (1, rest)
    | _ => (1, cs)
  let body : List Char :=
    match signed.2 with
    | '0' :: 'x' :: rest => rest
    | '0' :: 'X' :: rest => rest
    | other => other
  let digits := body.takeWhile isHexDigit
  if digits.isEmpty then none
  else some (signed.1 *
    digits.foldl (fun acc c => acc * 16 + (hexDigitVal c : Int)) 0)

/-- The color validation shared by `highlightDomains` (lines 364-365)
and `highlightResidueWithSphere` (lines 57-58): strip an optional
leading `#`, then `parseInt(hex, 16)`; `none` is the `NaN` case. -/
def parseColor (colorHex : String) : Option Int :=
  let hex : String :=
    match colorHex.toList with
    | '#' :: rest => String.mk rest
    | _ => colorHex
  jsParseIntHex hex

/-! ## Structure data and queries

A loaded structure is a list of atoms; the Mol* `atoms({...})`
generator filters the atoms by the conjunction of the chain, residue
and atom tests, and `StructureElement.Bundle.fromSelection` keeps that
selection, so a bundle is modelled as the selected atom list. -/

structure Atom where
  label_seq_id : Int
  label_asym_id : String
  label_atom_id : String
  label_comp_id : String
deriving DecidableEq, Repr

abbrev Struc := List Atom

def atomsQuery (chainTest residueTest atomTest : Atom → Bool)
    (st : Struc) : List Atom :=
  st.filter (fun a => chainTest a && residueTest a && atomTest a)

/-- One record of the overpaint cache (`interface OverpaintLayer`): a
bundle (selection of atoms), a color and a clear flag. -/
structure OverpaintLayer where
  bundle : List Atom
  color : Int
  clear : Bool
deriving DecidableEq, Repr

/-- The layer record pushed by `highlightDomains` (part_000 lines
371-386): the bundle selected by the residue test
`residueStart ≤ label_seq_id ≤ residueEnd`, the parsed color, and
`clear: false`. -/
def domainLayer (residueStart residueEnd colorValue : Int)
    (st : Struc) : OverpaintLayer :=
  { bundle := atomsQuery (fun _ => true)
      (fun a => decide (residueStart ≤ a.label_seq_id) &&
        decide (a.label_seq_id ≤ residueEnd)) (fun _ => true) st,
    color := colorValue, clear := false }

/-- The ball-and-stick representation created inside the `mutations`
group by `highlightResidueWithSphere`: the queried residue positions
and the uniform color. -/
structure SphereRep where
  positions : List Int
  color : Int
deriving DecidableEq, Repr

/-- Observable viewer state touched by the commands.
* `loadedStructure` — `managers.structure.hierarchy.current.structures[0]`
  (`none` when nothing is loaded);
* `overpaintLayers` — the module-level cache array;
* `committedLayers` — the `layers` argument of the last
  `OverpaintStructureRepresentation3DFromBundle` applied to the
  cartoon representation (the committed overpaint);
* `mutations` — the `mutations` group and its sphere representations
  (`none` when the group does not exist);
* `focused` — the loci last given to `camera.focusLoci`;
* `cameraResets` — counts `camera.reset()` calls. -/
structure ViewerState where
  loadedStructure : Option Struc
  overpaintLayers : List OverpaintLayer
  committedLayers : List OverpaintLayer
  mutations : Option (List SphereRep)
  focused : Option (List Atom)
  cameraResets : Nat
deriving DecidableEq, Repr

/-- Result of one command: it either finishes normally (possibly after
warning and short-circuiting) or an exception escapes.  `s` is the
state when the operation ends; warnings are the `console.warn` texts
emitted during the call. -/
inductive OpOutcome where
  | ok (s : ViewerState) (warnings : List String) : OpOutcome
  | threw (s : ViewerState) (msg : String) : OpOutcome
deriving DecidableEq, Repr

def OpOutcome.state : OpOutcome → ViewerState
  | .ok s _ => s
  | .threw s _ => s

def OpOutcome.warnings : OpOutcome → List String
  | .ok _ w => w
  | .threw _ _ => []

def OpOutcome.didThrow : OpOutcome → Bool
  | .ok _ _ => false
  | .threw _ _ => true

/-! ## The commands -/

/-- `highlightDomains` (part_000 lines 351-394): guard on a loaded
structure, validate the color, select the atoms whose residue
`label_seq_id` lies in `[residueStart, residueEnd]`, push one layer on
the cache, and re-apply the overpaint transform with the whole cache as
its `layers`. -/
def highlightDomains (s : ViewerState) (residueStart residueEnd : Int)
    (colorHex : String) : OpOutcome :=
  match s.loadedStructure with
  | none => .ok s ["No Structure loaded"]
  | some st =>
    match parseColor colorHex with
    | none => .ok s ["Invalid color: " ++ colorHex]
    | some colorValue =>
      let newLayers := s.overpaintLayers ++
        [domainLayer residueStart residueEnd colorValue st]
      .ok { s with overpaintLayers := newLayers,
                   committedLayers := newLayers } []

/-- `highlightResidueWithSphere` (part_000 lines 22-115): clean the
positions (flatten, floor, drop non-finite, dedupe, sort), abort with a
warning when none remain, validate the color, then access
`structures[0].cell` — with no structure loaded `structures[0]` is
`undefined` and the property access throws a `TypeError` — and finally
build the `mutations` group with one ball-and-stick representation of
the queried positions. -/
def highlightResidueWithSphere (s : ViewerState) (positions : PosInput)
    (colorHex : String) : OpOutcome :=
  let u := uniquePos (flattenPos positions)
  if u.isEmpty then
    .ok s ["No valid positions after cleaning; aborting highlight."]
  else
    match parseColor colorHex with
    | none => .ok s ["Invalid color: " ++ colorHex]
    | some colorValue =>
      match s.loadedStructure with
      | none =>
        .threw s "TypeError: cannot read properties of undefined (reading cell)"
      | some _ =>
        .ok { s with mutations := some [{ positions := u, color := colorValue }] } []

/-- `zoomToResidue` (part_000 lines 420-453): guard on a loaded
structure, query the residue's atoms in the given chain, and focus the
camera on the resulting loci. -/
def zoomToResidue (s : ViewerState) (residueNumber : Int)
    (chainId : String) : OpOutcome :=
  match s.loadedStructure with
  | none => .ok s ["No structure loaded"]
  | some st =>
    let sel := atomsQuery (fun a => a.label_asym_id == chainId)
      (fun a => a.label_seq_id == residueNumber) (fun _ => true) st
    .ok { s with focused := some sel } []

/-- `clearOverlays` (part_000 lines 312-328): empty the cache, re-apply
the overpaint transform with `layers: []`, and delete the `mutations`
group. -/
def clearOverlays (s : ViewerState) : OpOutcome :=
  .ok { s with overpaintLayers := [], committedLayers := [],
               mutations := none } []

/-- `clearPaint` (part_000 lines 331-342): empty the cache and re-apply
the overpaint transform with `layers: []`; the `mutations` group is not
touched. -/
def clearPaint (s : ViewerState) : OpOutcome :=
  .ok { s with overpaintLayers := [], committedLayers := [] } []

/-- `resetCamera` (part_000 lines 456-461): only `camera.reset()`. -/
def resetCamera (s : ViewerState) : OpOutcome :=
  .ok { s with cameraResets := s.cameraResets + 1 } []

/-- The six message-driven commands, for statements quantifying over
every operation. -/
inductive Command where
  | highlightDomains (residueStart residueEnd : Int) (colorHex : String)
  | highlightResidueWithSphere (positions : PosInput) (colorHex : String)
  | zoomToResidue (residueNumber : Int) (chainId : String)
  | clearOverlays
  | clearPaint
  | resetCamera

def runCommand (s : ViewerState) : Command → OpOutcome
  | .highlightDomains a b c => highlightDomains s a b c
  | .highlightResidueWithSphere p c => highlightResidueWithSphere s p c
  | .zoomToResidue n c => zoomToResidue s n c
  | .clearOverlays => clearOverlays s
  | .clearPaint => clearPaint s
  | .resetCamera => resetCamera s

/-! ## Hover events

One element of a structure-element loci carries a unit (whose
`elements` array maps unit-local indices to model atom indices) and an
`OrderedSet` of unit-local indices; `OrderedSet.start` is its first
member (`undefined` on an empty set).  The unit's model columns are the
per-atom residue index and component id and the per-residue sequence
id; for an in-range atom index the typed-array reads are modelled by
`getD`. -/

structure LociElement where
  unitElements : List Nat
  indices : List Nat
  residueIndexArr : List Nat
  compIdArr : List String
  seqIdArr : List Int
deriving DecidableEq, Repr

/-- A hover loci: either a structure-element loci
(`StructureElement.Loci.is` holds) with its element list, or any other
loci kind. -/
inductive Loci where
  | structureElements (elems : List LociElement) : Loci
  | other : Loci
deriving DecidableEq, Repr

structure ResidueInfo where
  aa : String
  num : Int
  label : String
deriving DecidableEq, Repr

/-- `getResidueInfo` (part_000 lines 397-416): require a
structure-element loci with at least one element, take the first
element, its first unit-local index (`OrderedSet.start`; `undefined`
when the index set is empty), look up the model atom index
(`unit.elements[localIndex]`; `undefined` when out of range), then read
the component id and the residue sequence id and format
`"<comp_id> <seq_id>"`. -/
def getResidueInfo : Loci → Option ResidueInfo
  | .other => none
  | .structureElements [] => none
  | .structureElements (e :: _) =>
    match e.indices.head? with
    | none => none
    | some localIndex =>
      match e.unitElements[localIndex]? with
      | none => none
      | some atomIndex =>
        let residueIndex := e.residueIndexArr.getD atomIndex 0
        let compId := e.compIdArr.getD atomIndex ""
        let seqId := e.seqIdArr.getD residueIndex 0
        some { aa := compId, num := seqId,
               label := compId ++ " " ++ toString seqId }

/-- The hover subscription (part_000 lines 248-261): on a
structure-element loci with at least one element, compute the residue
info and, when it exists, emit the `resi_aa`, `resi_num` and `resiinfo`
inputs (namespaced) to Shiny; in every other case emit nothing.  The
result is the list of `(input name, value)` pairs sent to the host. -/
def hoverEmissions (ns : String) (loci : Loci) : List (String × String) :=
  match loci with
  | .other => []
  | .structureElements elems =>
    if elems.length = 0 then []
    else
      match getResidueInfo (.structureElements elems) with
      | none => []
      | some info =>
        [(ns ++ "resi_aa", info.aa), (ns ++ "resi_num", toString info.num),
         (ns ++ "resiinfo", info.label)]

/-! ## Concrete fixtures used by witnesses and counterexamples -/

def atomA : Atom :=
  { label_seq_id := 5, label_asym_id := "A", label_atom_id := "CA",
    label_comp_id := "GLY" }

def sampleLayer : OverpaintLayer :=
  { bundle := [atomA], color := 255, clear := false }

/-- Viewer with no structure loaded and empty caches. -/
def noStructState : ViewerState :=
  { loadedStructure := none, overpaintLayers := [], committedLayers := [],
    mutations := none, focused := none, cameraResets := 0 }

/-- Viewer with a one-atom structure loaded and empty caches. -/
def loadedState : ViewerState :=
  { loadedStructure := some [atomA], overpaintLayers := [],
    committedLayers := [], mutations := none, focused := none,
    cameraResets := 0 }

/-- Viewer with a structure loaded and one overpaint layer cached and
committed. -/
def paintedState : ViewerState :=
  { loadedStructure := some [atomA], overpaintLayers := [sampleLayer],
    committedLayers := [sampleLayer], mutations := none, focused := none,
    cameraResets := 0 }

/-- A structure-element loci element whose unit-local index set is
empty: `OrderedSet.start` yields `undefined` on it. -/
def emptyIndicesElem : LociElement :=
  { unitElements := [0], indices := [], residueIndexArr := [0],
    compIdArr := ["GLY"], seqIdArr := [42] }

/-- A well-formed loci element: local index 0 maps to model atom 3,
which lies in residue 7 with component id GLY and sequence id 104. -/
def goodElem : LociElement :=
  { unitElements := [3], indices := [0],
    residueIndexArr := [0, 0, 0, 7],
    compIdArr := ["x", "x", "x", "GLY"],
    seqIdArr := [0, 0, 0, 0, 0, 0, 0, 104] }

/-! ## Claims -/

/-- C1: a call to `highlightDomains` or `highlightResidueWithSphere`
whose hex color string parses to `NaN` (after stripping an optional
leading `#`) emits a console warning and returns without throwing: the
viewer state is unchanged, so no overpaint layer is appended to the
cache and no representation change is committed. -/
theorem invalid_hex_color_aborts (s : ViewerState) (a b : Int)
    (p : PosInput) (c : String) (h : parseColor c = none) :
    (highlightDomains s a b c).didThrow = false ∧
    (highlightDomains s a b c).state = s ∧
    (highlightDomains s a b c).warnings.length = 1 ∧
    (highlightResidueWithSphere s p c).didThrow = false ∧
    (highlightResidueWithSphere s p c).state = s ∧
    (highlightResidueWithSphere s p c).warnings.length = 1 := by
  cases hs : s.loadedStructure <;>
    by_cases hu : (uniquePos (flattenPos p)).isEmpty = true <;>
      simp [highlightDomains, highlightResidueWithSphere, hs, h, hu,
        OpOutcome.didThrow, OpOutcome.state, OpOutcome.warnings]

theorem invalid_hex_color_aborts_witness :
    (highlightDomains loadedState 1 2 "zz").didThrow = false ∧
    (highlightDomains loadedState 1 2 "zz").state = loadedState ∧
    (highlightDomains loadedState 1 2 "zz").warnings.length = 1 ∧
    (highlightResidueWithSphere loadedState (.num (.fin 3)) "zz").didThrow
      = false ∧
    (highlightResidueWithSphere loadedState (.num (.fin 3)) "zz").state
      = loadedState ∧
    (highlightResidueWithSphere loadedState (.num (.fin 3)) "zz").warnings.length
      = 1 :=
  invalid_hex_color_aborts loadedState 1 2 (.num (.fin 3)) "zz" (by decide)

/-- C2 counterexample: a domain-highlight call whose color string does
not parse appends nothing, so it is not the case that exactly one paint
layer record is appended on each call. -/
theorem highlightDomains_append_cex :
    ¬ ((highlightDomains loadedState 1 2 "zz").state.overpaintLayers.length
        = loadedState.overpaintLayers.length + 1) := by decide

/-- C2 (amended): on each domain-highlight call that passes its guards
(a structure is loaded and the hex color parses), exactly one paint
layer record is appended to the end of the overpaint layer list,
leaving all previously cached records unchanged. -/
theorem highlightDomains_appends_one_layer (s : ViewerState) (st : Struc)
    (a b : Int) (c : String) (v : Int)
    (h1 : s.loadedStructure = some st) (h2 : parseColor c = some v) :
    (highlightDomains s a b c).state.overpaintLayers
      = s.overpaintLayers ++ [domainLayer a b v st] := by
  simp [highlightDomains, h1, h2, OpOutcome.state]

theorem highlightDomains_appends_one_layer_witness :
    (highlightDomains loadedState 1 2 "#ff0000").state.overpaintLayers
      = loadedState.overpaintLayers ++
        [domainLayer 1 2 16711680 [atomA]] :=
  highlightDomains_appends_one_layer loadedState [atomA] 1 2 "#ff0000"
    16711680 rfl (by decide)

/-- C3 counterexample: `resetCamera` does not clear the overpaint layer
cache: on a state with one cached layer the cache is still nonempty
after the command. -/
theorem resetCamera_keeps_layers_cex :
    ¬ ((resetCamera paintedState).state.overpaintLayers = []) := by decide

/-- C3 (amended): `clearOverlays` and `clearPaint` wholesale-clear the
overpaint layer list, while `resetCamera` leaves it unchanged (it only
resets the camera). -/
theorem clear_commands_cache (s : ViewerState) :
    (clearOverlays s).state.overpaintLayers = [] ∧
    (clearPaint s).state.overpaintLayers = [] ∧
    (resetCamera s).state.overpaintLayers = s.overpaintLayers ∧
    (resetCamera s).state.cameraResets = s.cameraResets + 1 := by
  simp [clearOverlays, clearPaint, resetCamera, OpOutcome.state]

/-- C4: the cleaned position list of `highlightResidueWithSphere`
(flatten, coerce and floor, drop non-finite, dedupe, sort ascending)
contains each integer at most once and is sorted; when it is empty the
operation warns and returns with the state unchanged, and when the call
goes through, the sphere representation queries exactly that list. -/
theorem sphere_positions_cleaned (p : PosInput) (c : String)
    (s : ViewerState) :
    (uniquePos (flattenPos p)).Nodup ∧
    (uniquePos (flattenPos p)).Sorted (fun x y => x ≤ y) ∧
    (uniquePos (flattenPos p) = [] →
      highlightResidueWithSphere s p c
        = .ok s ["No valid positions after cleaning; aborting highlight."]) ∧
    (∀ st v, s.loadedStructure = some st → parseColor c = some v →
      uniquePos (flattenPos p) ≠ [] →
      (highlightResidueWithSphere s p c).state.mutations
        = some [{ positions := uniquePos (flattenPos p), color := v }]) := by
  refine ⟨uniquePos_nodup _, uniquePos_sorted _, fun h => ?_,
    fun st v h1 h2 h3 => ?_⟩
  · simp [highlightResidueWithSphere, h]
  · simp [highlightResidueWithSphere, List.isEmpty_iff, h3, h1, h2,
      OpOutcome.state]

theorem sphere_positions_cleaned_witness :
    highlightResidueWithSphere loadedState (.arr [.num .nan]) "#ff0000"
      = .ok loadedState
          ["No valid positions after cleaning; aborting highlight."] ∧
    (highlightResidueWithSphere loadedState (.num (.fin 7)) "#ff0000").state.mutations
      = some [{ positions := uniquePos (flattenPos (.num (.fin 7))),
                color := 16711680 }] :=
  ⟨(sphere_positions_cleaned (.arr [.num .nan]) "#ff0000"
      loadedState).2.2.1
      (by simp [flattenPos, uniquePos, posNums, toFiniteFloor, jsSetDedup,
        List.insertionSort]),
   (sphere_positions_cleaned (.num (.fin 7)) "#ff0000"
      loadedState).2.2.2 [atomA] 16711680 rfl (by decide)
      (by simp [flattenPos, uniquePos, posNums, toFiniteFloor, jsSetDedup,
        jsSetInsert, List.insertionSort, List.orderedInsert])⟩

/-- C5: the `layers` array committed by a successful `highlightDomains`
is exactly the overpaint cache in append order, and no command reorders
or removes an individual cached record: every command either leaves the
cache as a prefix-preserving extension or empties it wholesale. -/
theorem layer_list_order_invariant (s : ViewerState) (cmd : Command) :
    ((∃ tail, (runCommand s cmd).state.overpaintLayers
        = s.overpaintLayers ++ tail) ∨
      (runCommand s cmd).state.overpaintLayers = []) ∧
    (∀ a b c st v, cmd = .highlightDomains a b c →
      s.loadedStructure = some st → parseColor c = some v →
      (runCommand s cmd).state.committedLayers
          = (runCommand s cmd).state.overpaintLayers ∧
        (runCommand s cmd).state.overpaintLayers
          = s.overpaintLayers ++ [domainLayer a b v st]) := by
  constructor
  · cases cmd with
    | highlightDomains a b c =>
      left
      cases hs : s.loadedStructure with
      | none => exact ⟨[], by simp [runCommand, highlightDomains, hs,
          OpOutcome.state]⟩
      | some st =>
        cases hc : parseColor c with
        | none => exact ⟨[], by simp [runCommand, highlightDomains, hs, hc,
            OpOutcome.state]⟩
        | some v =>
          refine ⟨[domainLayer a b v st], ?_⟩
          simp [runCommand, highlightDomains, hs, hc, OpOutcome.state]
    | highlightResidueWithSphere p c =>
      left
      refine ⟨[], ?_⟩
      by_cases hu : (uniquePos (flattenPos p)).isEmpty = true <;>
        cases hc : parseColor c <;> cases hs : s.loadedStructure <;>
          simp [runCommand, highlightResidueWithSphere, hu, hc, hs,
            OpOutcome.state]
    | zoomToResidue n c =>
      left
      refine ⟨[], ?_⟩
      cases hs : s.loadedStructure <;>
        simp [runCommand, zoomToResidue, hs, OpOutcome.state]
    | clearOverlays => right; simp [runCommand, clearOverlays, OpOutcome.state]
    | clearPaint => right; simp [runCommand, clearPaint, OpOutcome.state]
    | resetCamera =>
      exact Or.inl ⟨[], by simp [runCommand, resetCamera, OpOutcome.state]⟩
  · intro a b c st v hcmd h1 h2
    subst hcmd
    simp [runCommand, highlightDomains, h1, h2, OpOutcome.state]

theorem layer_list_order_invariant_witness :
    (runCommand loadedState (.highlightDomains 1 2 "#ff0000")).state.committedLayers
      = (runCommand loadedState
          (.highlightDomains 1 2 "#ff0000")).state.overpaintLayers :=
  ((layer_list_order_invariant loadedState
      (.highlightDomains 1 2 "#ff0000")).2 1 2 "#ff0000" [atomA] 16711680
    rfl rfl (by decide)).1

/-- C6: the record appended by `highlightDomains start end colorHex`
has `clear = false`, the color parsed from `colorHex`, and a bundle
holding exactly the loaded structure's atoms whose residue
`label_seq_id` lies in the inclusive range `[start, end]`. -/
theorem highlightDomains_layer_contents (s : ViewerState) (st : Struc)
    (a b : Int) (c : String) (v : Int)
    (h1 : s.loadedStructure = some st) (h2 : parseColor c = some v) :
    ∃ layer,
      (highlightDomains s a b c).state.overpaintLayers.getLast?
          = some layer ∧
        layer.clear = false ∧ layer.color = v ∧
        (∀ x : Atom, x ∈ layer.bundle ↔
          x ∈ st ∧ a ≤ x.label_seq_id ∧ x.label_seq_id ≤ b) := by
  refine ⟨domainLayer a b v st, ?_, rfl, rfl, fun x => ?_⟩
  · simp [highlightDomains, h1, h2, OpOutcome.state, List.getLast?_concat]
  · simp [domainLayer, atomsQuery, List.mem_filter, and_assoc]

theorem highlightDomains_layer_contents_witness :
    ∃ layer,
      (highlightDomains loadedState 1 10 "#00ff00").state.overpaintLayers.getLast?
          = some layer ∧
        layer.clear = false ∧ layer.color = 65280 ∧
        (∀ x : Atom, x ∈ layer.bundle ↔
          x ∈ [atomA] ∧ 1 ≤ x.label_seq_id ∧ x.label_seq_id ≤ 10) :=
  highlightDomains_layer_contents loadedState [atomA] 1 10 "#00ff00" 65280
    rfl (by decide)

/-- C7 counterexample: a structure-element loci with one element whose
unit-local index set is empty emits nothing, so it is not the case that
every structure-element loci with at least one element emits a residue
label. -/
theorem hover_emission_cex :
    [emptyIndicesElem].length = 1 ∧
    hoverEmissions "mod_" (.structureElements [emptyIndicesElem]) = [] := by
  constructor
  · rfl
  · decide

/-- C7 (amended): for a hover event whose loci is a structure-element
loci with at least one element, provided the first element resolves to
an atom (its index set is nonempty and its first index is within the
unit's atom list), the residue label `"<comp_id> <seq_id>"` of that
atom is emitted back to the host (as the `resiinfo` input, together
with its components); a structure-element loci whose first element
fails these checks, an empty structure-element loci, or a loci of any
other kind emits nothing. -/
theorem hover_emission_characterization (ns : String) (e : LociElement)
    (rest : List LociElement) (li ai : Nat)
    (h1 : e.indices.head? = some li)
    (h2 : e.unitElements[li]? = some ai) :
    hoverEmissions ns (.structureElements (e :: rest))
        = [(ns ++ "resi_aa", e.compIdArr.getD ai ""),
           (ns ++ "resi_num",
             toString (e.seqIdArr.getD (e.residueIndexArr.getD ai 0) 0)),
           (ns ++ "resiinfo", e.compIdArr.getD ai "" ++ " " ++
             toString (e.seqIdArr.getD (e.residueIndexArr.getD ai 0) 0))] ∧
      hoverEmissions ns .other = [] ∧
      hoverEmissions ns (.structureElements []) = [] := by
  refine ⟨?_, rfl, rfl⟩
  simp [hoverEmissions, getResidueInfo, h1, h2]

theorem hover_emission_characterization_witness :
    hoverEmissions "m_" (.structureElements [goodElem])
      = [("m_" ++ "resi_aa", "GLY"), ("m_" ++ "resi_num", "104"),
         ("m_" ++ "resiinfo", "GLY" ++ " " ++ "104")] :=
  (hover_emission_characterization "m_" goodElem [] 0 3 rfl rfl).1

/-- C8 (the claim fails on the code): with no structure loaded,
`highlightResidueWithSphere` with valid positions and color reaches
`structures[0].cell` and throws, while every other command completes
or warns and returns early without throwing. -/
theorem sphere_throws_without_structure :
    (highlightResidueWithSphere noStructState (.num (.fin 1)) "#ff0000").didThrow
        = true ∧
      (highlightDomains noStructState 1 2 "#ff0000").didThrow = false ∧
      (zoomToResidue noStructState 1 "A").didThrow = false ∧
      (clearOverlays noStructState).didThrow = false ∧
      (clearPaint noStructState).didThrow = false ∧
      (resetCamera noStructState).didThrow = false := by
  have hu : uniquePos (flattenPos (.num (.fin 1))) = [1] := by
    simp [flattenPos, uniquePos, posNums, toFiniteFloor, jsSetDedup,
      jsSetInsert, List.insertionSort, List.orderedInsert]
  refine ⟨?_, by decide, by decide, by decide, by decide, by decide⟩
  simp only [highlightResidueWithSphere, hu]
  decide

/-- C9: `clearPaint` empties the overpaint cache and removes the
committed overpaint but leaves the `mutations` group and every other
state component untouched; `clearOverlays` additionally deletes the
`mutations` group and touches nothing else. -/
theorem clearPaint_clearOverlays_frame (s : ViewerState) :
    (clearPaint s).state.overpaintLayers = [] ∧
    (clearPaint s).state.committedLayers = [] ∧
    (clearPaint s).state.mutations = s.mutations ∧
    (clearPaint s).state.loadedStructure = s.loadedStructure ∧
    (clearPaint s).state.focused = s.focused ∧
    (clearPaint s).state.cameraResets = s.cameraResets ∧
    (clearOverlays s).state.overpaintLayers = [] ∧
    (clearOverlays s).state.committedLayers = [] ∧
    (clearOverlays s).state.mutations = none ∧
    (clearOverlays s).state.loadedStructure = s.loadedStructure ∧
    (clearOverlays s).state.focused = s.focused ∧
    (clearOverlays s).state.cameraResets = s.cameraResets := by
  simp [clearPaint, clearOverlays, OpOutcome.state]

/-- C10: the position-cleaning pipeline is invariant under permutation,
duplication and nesting of its input: two inputs whose flattened leaf
sequences are permutations of each other produce the same cleaned
position list, hence the same queried residue set. -/
theorem cleaning_perm_invariant (t1 t2 : PosInput)
    (h : (flattenPos t1).Perm (flattenPos t2)) :
    uniquePos (flattenPos t1) = uniquePos (flattenPos t2) := by
  have hm : ∀ a : Int,
      a ∈ uniquePos (flattenPos t1) ↔ a ∈ uniquePos (flattenPos t2) := by
    intro a
    rw [mem_uniquePos, mem_uniquePos]
    unfold posNums
    exact (h.filterMap toFiniteFloor).mem_iff
  exact List.eq_of_perm_of_sorted
    ((List.perm_ext_iff_of_nodup (uniquePos_nodup _) (uniquePos_nodup _)).mpr
      hm)
    (uniquePos_sorted _) (uniquePos_sorted _)

theorem cleaning_perm_invariant_witness :
    uniquePos (flattenPos
        (.arr [.num (.fin 2), .arr [.num (.fin 1)], .num (.fin 1)]))
      = uniquePos (flattenPos
          (.arr [.num (.fin 1), .num (.fin 1), .num (.fin 2)])) :=
  cleaning_perm_invariant _ _ (by
    have h1 : flattenPos
        (.arr [.num (.fin 2), .arr [.num (.fin 1)], .num (.fin 1)])
        = [.fin 2, .fin 1, .fin 1] := by simp [flattenPos]
    have h2 : flattenPos
        (.arr [.num (.fin 1), .num (.fin 1), .num (.fin 2)])
        = [.fin 1, .fin 1, .fin 2] := by simp [flattenPos]
    rw [h1, h2]
    exact (List.Perm.swap _ _ _).trans ((List.Perm.swap _ _ _).cons _))

end Molstar
